import Mathlib

set_option autoImplicit false

/- Shallow embedding of the offline landmark cache of this repository:
   cache_manager.py (class OfflineCacheManager), components/cache_manager.py
   (class CacheManager), utils/coord_utils.py (validate_coords), and the
   get_landmarks orchestrator defined in main.py.  Machine floats of the
   source are modelled as rationals, the file system as association lists
   from path to content, and the network as an oracle argument. -/

/-- A landmark record as the cache code sees it: the dict keys the cache
reads or writes (title, image_url, cached_image) plus the coordinate fields
lat/lon that validate_coords checks.  imageUrl = none models a dict without
an image_url key; cachedImage likewise for the cached_image key. -/
structure Landmark where
  title : String
  imageUrl : Option String
  cachedImage : Option String
  lat : ℚ
  lon : ℚ
deriving DecidableEq, Repr

/-- Model of utils/coord_utils.py, validate_coords: true exactly when the
latitude lies in [-90, 90] and the longitude in [-180, 180]. -/
def validate_coords (lat lon : ℚ) : Bool :=
  decide (-90 ≤ lat ∧ lat ≤ 90 ∧ -180 ≤ lon ∧ lon ≤ 180)

/-- Outcome of the HTTP GET inside the image cacher: HTTP 200, some other
status code, or a requests.RequestException. -/
inductive NetResult where
  | ok : NetResult
  | status : Nat → NetResult
  | exn : NetResult
deriving DecidableEq, Repr

/-- Configuration of the image store: the images directory and the hex
digest function (hashlib.md5 hexdigest in the source), kept abstract. -/
structure ImgConfig where
  imagesDir : String
  md5 : String → String

/-- File-system fragment for the images directory: association list from
path to a readability flag; false models a file whose open/read raises. -/
abbrev ImgFS := List (String × Bool)

/-- Look up a path among the image files (first match wins). -/
def lookupFile (fs : ImgFS) (p : String) : Option Bool :=
  match fs.find? (fun e => e.1 == p) with
  | some e => some e.2
  | none => none

/-- Writing a file makes it present and readable. -/
def writeFile (fs : ImgFS) (p : String) : ImgFS :=
  (p, true) :: fs

/-- The content-addressed target path: imagesDir, then a slash, then the
digest of the url, then the .jpg suffix. -/
def imagePath (cfg : ImgConfig) (url : String) : String :=
  cfg.imagesDir ++ "/" ++ cfg.md5 url ++ ".jpg"

/-- Result of one call of the image cacher: the returned string, the file
system afterwards, whether a network request was issued, and whether a
download succeeded (HTTP 200 and the file written). -/
structure ImgCall where
  result : String
  fs : ImgFS
  requested : Bool
  downloaded : Bool
deriving DecidableEq, Repr

/-- Model of OfflineCacheManager._cache_image (textually identical in
components/cache_manager.py, CacheManager._cache_image): hash the URL and,
if the target file exists and is readable, return it with no network call;
otherwise issue one GET: on HTTP 200 write the file and return its path, on
any other status or a request exception return the empty string.  The outer
try/except of the source turns every failure into an empty-string return,
so the model is a total function. -/
def cache_image (cfg : ImgConfig) (net : String → NetResult) (fs : ImgFS)
    (url : String) : ImgCall :=
  let filename := imagePath cfg url
  match lookupFile fs filename with
  | some true => ⟨filename, fs, false, false⟩
  | _ =>
    match net url with
    | NetResult.ok => ⟨filename, writeFile fs filename, true, true⟩
    | NetResult.status _ => ⟨"", fs, true, false⟩
    | NetResult.exn => ⟨"", fs, true, false⟩

/-- Per-landmark body of the loop in OfflineCacheManager.cache_landmarks:
when the record carries a non-empty image_url the image cacher is invoked,
and only a non-empty result replaces image_url; on an empty result (failed
download) the record is kept unchanged.  imgResult u stands for the string
_cache_image returned for url u. -/
def processLandmark (imgResult : String → String) (l : Landmark) : Landmark :=
  match l.imageUrl with
  | some u =>
      if u = "" then l
      else
        let p := imgResult u
        if p = "" then l else { l with imageUrl := some p }
  | none => l

/-- The record list OfflineCacheManager.cache_landmarks stores: every
incoming record, processed by processLandmark, in order.  The source
performs no coordinate validation and drops no record. -/
def cache_landmarks_records (imgResult : String → String)
    (ls : List Landmark) : List Landmark :=
  ls.map (processLandmark imgResult)

/-- The JSON object cache_landmarks writes: the processed records and the
time.time() value.  The echoed bounds are omitted; no reader uses them. -/
structure CacheEntryFile where
  landmarks : List Landmark
  timestamp : ℚ
deriving DecidableEq, Repr

/-- The landmarks directory: association list from file name to content. -/
abbrev LandmarksDir := List (String × CacheEntryFile)

/-- Look up a cache file by name (first match wins). -/
def lookupEntry (d : LandmarksDir) (p : String) : Option CacheEntryFile :=
  match d.find? (fun e => e.1 == p) with
  | some e => some e.2
  | none => none

/-- Query bounds (south, west, north, east), as in the source tuple. -/
structure Bounds where
  south : ℚ
  west : ℚ
  north : ℚ
  east : ℚ
deriving DecidableEq, Repr

/-- Model of cache_manager.py line 102: the commented-out per-bounds key is
replaced by the fixed string "_1" (comment: use single cache file for now);
the bounds argument is ignored. -/
def bounds_key (bounds : Bounds) : String := "_1"

/-- File name cache_landmarks writes to: the f-string landmarks_ followed
by the bounds key and .json, which with the fixed key is
landmarks__1.json (double underscore). -/
def put_file_name (bounds : Bounds) : String :=
  "landmarks_" ++ bounds_key bounds ++ ".json"

/-- File name get_cached_landmarks reads: the hardcoded landmarks_1.json
(single underscore) of cache_manager.py line 180. -/
def get_file_name : String := "landmarks_1.json"

/-- Model of OfflineCacheManager.cache_landmarks: process each record, then
write the entry with the current time under put_file_name. -/
def cache_landmarks (imgResult : String → String) (d : LandmarksDir)
    (bounds : Bounds) (now : ℚ) (ls : List Landmark) : LandmarksDir :=
  (put_file_name bounds, ⟨cache_landmarks_records imgResult ls, now⟩) :: d

/-- Model of OfflineCacheManager.get_cached_landmarks: read the fixed file
get_file_name (a missing or unreadable file raises, is caught and yields
the empty list); the age check is disabled in the source (age_hours = 0
with the comment: disable cache expiration for now), so the entry is served
whenever 0 <= max_age_hours; each record carrying a cached_image key has
its image_url replaced by that value.  The bounds and the current time are
unused, mirroring the source. -/
def get_cached_landmarks (d : LandmarksDir) (bounds : Bounds) (now : ℚ)
    (maxAgeHours : ℤ) : List Landmark :=
  match lookupEntry d get_file_name with
  | none => []
  | some entry =>
      let ageHours : ℤ := 0
      if ageHours ≤ maxAgeHours then
        entry.landmarks.map (fun l =>
          match l.cachedImage with
          | some c => { l with imageUrl := some c }
          | none => l)
      else []

/-- Model of components/cache_manager.py, CacheManager.get_cached_landmarks:
read the fixed file landmarks.json and return its landmark list as is;
any error yields the empty list.  center_coords and radius_km are unused,
mirroring the source. -/
def cm_get_cached_landmarks (d : LandmarksDir) (center : ℚ × ℚ)
    (radiusKm : ℚ) : List Landmark :=
  match lookupEntry d "landmarks.json" with
  | none => []
  | some entry => entry.landmarks

/-- Result of main.py get_landmarks: the returned records, whether a cache
write was attempted, and whether st.error displayed an error message.  The
type is a plain structure (not an error monad) because the source catches
every exception and always returns normally. -/
structure GLResult where
  records : List Landmark
  wroteCache : Bool
  errorShown : Bool
deriving DecidableEq, Repr

/-- Model of get_landmarks in main.py: offline mode returns the cached
records; online with zoom_level at least 8 the adapter is called (fetch as
Except.error models the adapter raising, which the handler turns into an
error banner plus an empty return); a non-empty fetch result is written to
the cache before being returned (writeOk = false models the cache file
write raising, which the handler also turns into an empty return); an empty
fetch result or a low zoom level returns the empty list without writing.
The except branch re-checks offline_mode, which is false on every path that
can raise, so that branch returns the empty list. -/
def get_landmarks (offline : Bool) (zoomLevel : Nat) (cached : List Landmark)
    (fetch : Except String (List Landmark)) (writeOk : Bool) : GLResult :=
  if offline then ⟨cached, false, false⟩
  else if 8 ≤ zoomLevel then
    match fetch with
    | Except.error _ => ⟨[], false, true⟩
    | Except.ok landmarks =>
        if landmarks = [] then ⟨[], false, false⟩
        else if writeOk then ⟨landmarks, true, false⟩
        else ⟨[], true, true⟩
  else ⟨[], false, false⟩

/-- A cache file with its os.path.getmtime value. -/
structure CFile where
  name : String
  mtime : ℚ
deriving DecidableEq, Repr

/-- One directory pass of clear_old_cache: files with mtime below the
cutoff are removed one by one; delOk names the deletions that succeed.  A
failed os.remove raises, and the single try/except wrapping the whole
method catches it, so the rest of the listing is not visited.  The triple
is (remaining files, number removed, aborted flag). -/
def sweepFiles (delOk : String → Bool) (cutoff : ℚ) :
    List CFile → List CFile × Nat × Bool
  | [] => ([], 0, false)
  | f :: rest =>
      if f.mtime < cutoff then
        if delOk f.name then
          let r := sweepFiles delOk cutoff rest
          (r.1, r.2.1 + 1, r.2.2)
        else (f :: rest, 0, true)
      else
        let r := sweepFiles delOk cutoff rest
        (f :: r.1, r.2.1, r.2.2)

/-- The two cache directories clear_old_cache sweeps. -/
structure CacheFS where
  landmarkFiles : List CFile
  imageFiles : List CFile
deriving DecidableEq, Repr

/-- Model of OfflineCacheManager.clear_old_cache: sweep the landmarks
directory, then the images directory, with cutoff
current_time - max_age_hours * 3600; an exception during the first sweep
skips the second entirely.  Returns the resulting state, the number of
removed files, and whether the sweep aborted (in the source the count is
only displayed when no exception occurred). -/
def clear_old_cache (delOk : String → Bool) (now maxAgeHours : ℚ)
    (st : CacheFS) : CacheFS × Nat × Bool :=
  let cutoff := now - maxAgeHours * 3600
  let r1 := sweepFiles delOk cutoff st.landmarkFiles
  if r1.2.2 then (⟨r1.1, st.imageFiles⟩, r1.2.1, true)
  else
    let r2 := sweepFiles delOk cutoff st.imageFiles
    (⟨r1.1, r2.1⟩, r1.2.1 + r2.2.1, r2.2.2)

/-- Files of a directory strictly older than the cutoff (the ones the sweep
deletes). -/
def oldFiles (cutoff : ℚ) (fs : List CFile) : List CFile :=
  fs.filter (fun f => decide (f.mtime < cutoff))

/-- Files of a directory at or after the cutoff (the ones the sweep keeps). -/
def keepFiles (cutoff : ℚ) (fs : List CFile) : List CFile :=
  fs.filter (fun f => ! decide (f.mtime < cutoff))

/-- Rounding to three decimals, the granularity the spec assigns to the
region key encoder; used to state that two bounds differ beyond it. -/
def round3 (q : ℚ) : ℤ := round (q * 1000)

/-- Title and coordinates of a record, the fields the cache write never
touches. -/
def coreFields (l : Landmark) : String × ℚ × ℚ := (l.title, l.lat, l.lon)

/-- A concrete landmark record used in concrete evaluations. -/
def ferry : Landmark := ⟨"Ferry Building", none, none, 37, -122⟩

/-- A concrete record with valid coordinates. -/
def goodRec : Landmark := ⟨"Good", none, none, 10, 20⟩

/-- A concrete record with an out-of-range latitude. -/
def badRec : Landmark := ⟨"Bad", none, none, 200, 0⟩

/-- A concrete record carrying a remote image URL. -/
def urlRec : Landmark := ⟨"Photo", some "http://example/img.jpg", none, 1, 2⟩

/-- A second concrete record carrying a remote image URL. -/
def urlRec2 : Landmark := ⟨"Photo2", some "http://a/b.jpg", none, 3, 4⟩

/-- A concrete image-store configuration. -/
def cfgW : ImgConfig := ⟨"imgs", fun _ => "h"⟩

/-- Looking up a freshly written file finds it readable. -/
theorem lookupFile_writeFile (fs : ImgFS) (p : String) :
    lookupFile (writeFile fs p) p = some true := by
  simp [lookupFile, writeFile, List.find?]

/-- Processing a record for the cache never changes its title or
coordinates. -/
theorem coreFields_processLandmark (f : String → String) (l : Landmark) :
    coreFields (processLandmark f l) = coreFields l := by
  unfold processLandmark
  cases h : l.imageUrl with
  | none => rfl
  | some u =>
      by_cases hu : u = ""
      · simp [hu]
      · by_cases hp : f u = ""
        · simp [hu, hp]
        · simp [hu, hp, coreFields]

/-- When every deletion succeeds, a sweep pass keeps exactly the files at
or after the cutoff and counts the strictly older ones. -/
theorem sweepFiles_all_ok (cutoff : ℚ) (fs : List CFile) :
    sweepFiles (fun _ => true) cutoff fs
      = (keepFiles cutoff fs, (oldFiles cutoff fs).length, false) := by
  induction fs with
  | nil => rfl
  | cons f rest ih =>
      by_cases h : f.mtime < cutoff
      · simp [sweepFiles, keepFiles, oldFiles, h, ih, List.filter_cons]
      · simp [sweepFiles, keepFiles, oldFiles, h, ih, List.filter_cons]

/-- Claim C1: the spec requires that an entry written by put at time T is
returned by a get of the same query within max_age and treated as a miss
(empty) after T + max_age.  The code violates both halves: cache_landmarks
writes the file landmarks__1.json while get_cached_landmarks reads the
hardcoded landmarks_1.json, so a fresh get right after a put returns the
empty list; and the age check is hardcoded off (age_hours = 0), so an
entry present under the name get reads is returned at any age (here 100
hours with max_age 24). -/
theorem put_get_staleness_bug :
    (get_cached_landmarks
        (cache_landmarks (fun _ => "") [] ⟨0, 0, 1, 1⟩ 0 [ferry])
        ⟨0, 0, 1, 1⟩ 1 24 = [])
    ∧ put_file_name ⟨0, 0, 1, 1⟩ ≠ get_file_name
    ∧ (get_cached_landmarks [(get_file_name, ⟨[ferry], 0⟩)] ⟨0, 0, 1, 1⟩
        (100 * 3600) 24 = [ferry]) := by
  refine ⟨rfl, by decide, rfl⟩

/-- Claim C9: the cached-landmark read is independent of its geographic
query argument, in both implementations: OfflineCacheManager reads the one
fixed file landmarks_1.json and CacheManager the one fixed file
landmarks.json, ignoring bounds, center and radius. -/
theorem get_cached_landmarks_ignores_query (d : LandmarksDir) (now : ℚ)
    (maxAgeHours : ℤ) (b1 b2 : Bounds) (c1 c2 : ℚ × ℚ) (r1 r2 : ℚ) :
    get_cached_landmarks d b1 now maxAgeHours
        = get_cached_landmarks d b2 now maxAgeHours
    ∧ cm_get_cached_landmarks d c1 r1 = cm_get_cached_landmarks d c2 r2 :=
  ⟨rfl, rfl⟩

/-- Claim C4, counterexample: the claim that geometrically distinct queries
(differing beyond the rounding precision) yield different keys is false:
the bounds (0,0,1,1) and (50,50,60,60) differ by 50 degrees, far beyond the
3-decimal precision, yet produce the same key and the same cache file
name. -/
theorem bounds_key_collision_cex :
    round3 (Bounds.mk 0 0 1 1).south ≠ round3 (Bounds.mk 50 50 60 60).south
    ∧ bounds_key ⟨0, 0, 1, 1⟩ = bounds_key ⟨50, 50, 60, 60⟩
    ∧ put_file_name ⟨0, 0, 1, 1⟩ = put_file_name ⟨50, 50, 60, 60⟩ := by
  refine ⟨by norm_num [round3, round_eq], rfl, rfl⟩

/-- Claim C4, amended: the region-key encoder is deterministic but
constant: every bounds query maps to the single fixed key "_1"
(single-cache-file mode), so semantically equivalent queries share a key,
but geometrically distinct queries share it as well. -/
theorem bounds_key_constant (b1 b2 : Bounds) :
    bounds_key b1 = "_1" ∧ bounds_key b1 = bounds_key b2 :=
  ⟨rfl, rfl⟩

/-- Claim C5, counterexample: the claim that a record failing coordinate
validation (latitude 200) is omitted from the stored entry is false: the
cache write performs no coordinate validation and stores the invalid record
alongside the valid one. -/
theorem cache_landmarks_stores_invalid_cex :
    validate_coords badRec.lat badRec.lon = false
    ∧ validate_coords goodRec.lat goodRec.lon = true
    ∧ cache_landmarks_records (fun _ => "") [goodRec, badRec]
        = [goodRec, badRec] := by
  refine ⟨by decide, by decide, rfl⟩

/-- Claim C5, amended: put stores every record of the batch, in order,
with title and coordinates unchanged, whether the coordinates are valid or
not; no record is dropped and no record aborts the batch. -/
theorem cache_landmarks_keeps_every_record (f : String → String)
    (ls : List Landmark) :
    (cache_landmarks_records f ls).map coreFields = ls.map coreFields := by
  unfold cache_landmarks_records
  rw [List.map_map]
  exact List.map_congr_left (fun l _ => coreFields_processLandmark f l)

/-- Claim C2, counterexample: the claim that a fetch error is propagated to
the caller rather than returning a normal result is false: online, at zoom
level 10, with the adapter raising, get_landmarks catches the exception,
shows an error banner and returns the empty list as a normal result. -/
theorem get_landmarks_swallows_error_cex :
    get_landmarks false 10 [] (Except.error "network down") true
      = ⟨[], false, true⟩ := rfl

/-- Claim C2, amended: when the adapter fetch raises, get_landmarks catches
the exception, displays an error message, and returns the empty list to its
caller as a normal result; the error is never propagated (the offline
branch of the handler is unreachable on this path, since fetch only runs
when offline mode is off). -/
theorem get_landmarks_catches_fetch_errors (zoomLevel : Nat)
    (cached : List Landmark) (e : String) (writeOk : Bool)
    (hz : 8 ≤ zoomLevel) :
    get_landmarks false zoomLevel cached (Except.error e) writeOk
      = ⟨[], false, true⟩ := by
  simp [get_landmarks, hz]

/-- Claim C2, witness for the amended theorem at zoom level 9. -/
theorem get_landmarks_catches_fetch_errors_witness :
    get_landmarks false 9 [ferry] (Except.error "quota") false
      = ⟨[], false, true⟩ :=
  get_landmarks_catches_fetch_errors 9 [ferry] "quota" false (by decide)

/-- Claim C3: online and at a zoom level of at least 8, an empty fetch
result makes get_landmarks return the empty list without attempting any
cache write (for any outcome the write would have had), and a non-empty
fetch result is written to the cache and returned. -/
theorem get_landmarks_fetch_caching (zoomLevel : Nat)
    (cached l : List Landmark) (writeOk : Bool) (hz : 8 ≤ zoomLevel)
    (hl : l ≠ []) :
    get_landmarks false zoomLevel cached (Except.ok []) writeOk
        = ⟨[], false, false⟩
    ∧ get_landmarks false zoomLevel cached (Except.ok l) true
        = ⟨l, true, false⟩ := by
  constructor
  · simp [get_landmarks, hz]
  · simp [get_landmarks, hz, hl]

/-- Claim C3, witness at zoom level 10 with one fetched record. -/
theorem get_landmarks_fetch_caching_witness :
    get_landmarks false 10 [] (Except.ok []) true = ⟨[], false, false⟩
    ∧ get_landmarks false 10 [] (Except.ok [ferry]) true
        = ⟨[ferry], true, false⟩ :=
  get_landmarks_fetch_caching 10 [] [ferry] true (by decide) (by decide)

/-- Claim C6, counterexample: the claim that a stored record never retains
its original remote URL is false: when the image cacher fails (returns the
empty string), cache_landmarks keeps the record unchanged, remote URL and
all. -/
theorem cache_landmarks_retains_url_cex :
    ("http://example/img.jpg" : String) ≠ ""
    ∧ (cache_landmarks_records (fun _ => "") [urlRec]).map
        (fun l => l.imageUrl) = [some "http://example/img.jpg"] := by
  refine ⟨by decide, rfl⟩

/-- Claim C6, amended: for a record with a non-empty image_ref, the stored
image_ref is the image cacher's local path when caching succeeded, and the
original remote URL (unchanged, not emptied) when caching failed. -/
theorem process_landmark_image_ref (f : String → String) (l : Landmark)
    (u : String) (hu : l.imageUrl = some u) (hne : u ≠ "") :
    (processLandmark f l).imageUrl
      = some (if f u = "" then u else f u) := by
  unfold processLandmark
  rw [hu]
  by_cases hp : f u = ""
  · simp [hne, hp, hu]
  · simp [hne, hp]

/-- Claim C6, witness for the amended theorem: a record whose image
download fails keeps its remote URL. -/
theorem process_landmark_image_ref_witness :
    (processLandmark (fun _ => "") urlRec2).imageUrl
      = some "http://a/b.jpg" := by
  have h := process_landmark_image_ref (fun _ => "") urlRec2 "http://a/b.jpg"
    rfl (by decide)
  simpa using h

/-- Claim C7, counterexample: the claim that a failure to delete one file
does not prevent the remaining eligible files from being deleted is false:
with two files old enough to be swept (cutoff 13600, mtimes 0 and 1) and
the deletion of the first failing, the exception aborts the whole sweep and
the second file survives, with a reported count of 0. -/
theorem clear_old_cache_abort_cex :
    clear_old_cache (fun n => n == "b") 100000 24
        ⟨[⟨"a", 0⟩, ⟨"b", 1⟩], []⟩
      = (⟨[⟨"a", 0⟩, ⟨"b", 1⟩], []⟩, 0, true)
    ∧ (1 : ℚ) < 100000 - 24 * 3600 := by
  constructor
  · have hab : ("a" : String) ≠ "b" := by decide
    norm_num [clear_old_cache, sweepFiles, hab]
  · norm_num

/-- Claim C7, amended: when every deletion succeeds, clear_old_cache
removes exactly the cache-entry files and image files strictly older than
max_age and counts them; a failed deletion of an eligible file aborts the
remainder of the sweep (the exception is caught once, around the whole
method), leaving all later files in place. -/
theorem clear_old_cache_spec (now maxAgeHours : ℚ) (st : CacheFS) :
    (clear_old_cache (fun _ => true) now maxAgeHours st
      = (⟨keepFiles (now - maxAgeHours * 3600) st.landmarkFiles,
            keepFiles (now - maxAgeHours * 3600) st.imageFiles⟩,
          (oldFiles (now - maxAgeHours * 3600) st.landmarkFiles).length
            + (oldFiles (now - maxAgeHours * 3600) st.imageFiles).length,
          false))
    ∧ ∀ (delOk : String → Bool) (cutoff : ℚ) (f : CFile)
        (rest : List CFile), f.mtime < cutoff → delOk f.name = false →
        sweepFiles delOk cutoff (f :: rest) = (f :: rest, 0, true) := by
  constructor
  · simp [clear_old_cache, sweepFiles_all_ok]
  · intro delOk cutoff f rest hf hd
    simp [sweepFiles, hf, hd]

/-- Claim C7, witness for the amended theorem: a failing deletion of an
eligible file leaves the rest of the directory untouched. -/
theorem clear_old_cache_spec_witness :
    sweepFiles (fun _ => false) 10 [⟨"a", 0⟩, ⟨"b", 1⟩]
      = ([⟨"a", 0⟩, ⟨"b", 1⟩], 0, true) :=
  (clear_old_cache_spec 0 0 ⟨[], []⟩).2 (fun _ => false) 10 ⟨"a", 0⟩
    [⟨"b", 1⟩] (by norm_num) rfl

/-- Claim C8: if the target file for a URL already exists and is readable,
the image cacher returns its path with no network request and an unchanged
file system; moreover, over two consecutive calls on the same URL at most
one download happens, and once the first call has downloaded the file the
second call issues no network request and returns the same path. -/
theorem cache_image_no_double_download (cfg : ImgConfig)
    (net : String → NetResult) (fs : ImgFS) (url : String) :
    (lookupFile fs (imagePath cfg url) = some true →
        cache_image cfg net fs url = ⟨imagePath cfg url, fs, false, false⟩)
    ∧ ¬((cache_image cfg net fs url).downloaded = true
        ∧ (cache_image cfg net (cache_image cfg net fs url).fs
            url).downloaded = true)
    ∧ ((cache_image cfg net fs url).downloaded = true →
        (cache_image cfg net (cache_image cfg net fs url).fs
            url).requested = false
        ∧ (cache_image cfg net (cache_image cfg net fs url).fs url).result
            = (cache_image cfg net fs url).result) := by
  rcases hl : lookupFile fs (imagePath cfg url) with _ | b
  · rcases hn : net url with _ | c | _
    · refine ⟨?_, ?_, ?_⟩ <;>
        simp [cache_image, hl, hn, lookupFile_writeFile]
    · refine ⟨?_, ?_, ?_⟩ <;> simp [cache_image, hl, hn]
    · refine ⟨?_, ?_, ?_⟩ <;> simp [cache_image, hl, hn]
  · cases b
    · rcases hn : net url with _ | c | _
      · refine ⟨?_, ?_, ?_⟩ <;>
          simp [cache_image, hl, hn, lookupFile_writeFile]
      · refine ⟨?_, ?_, ?_⟩ <;> simp [cache_image, hl, hn]
      · refine ⟨?_, ?_, ?_⟩ <;> simp [cache_image, hl, hn]
    · refine ⟨?_, ?_, ?_⟩ <;> simp [cache_image, hl]

/-- Claim C8, witness: with the target file present and readable, the call
returns it without touching the network. -/
theorem cache_image_no_double_download_witness :
    cache_image cfgW (fun _ => NetResult.ok)
        [(imagePath cfgW "http://u", true)] "http://u"
      = ⟨imagePath cfgW "http://u", [(imagePath cfgW "http://u", true)],
          false, false⟩ :=
  (cache_image_no_double_download cfgW (fun _ => NetResult.ok)
      [(imagePath cfgW "http://u", true)] "http://u").1 (by decide)

/-- Claim C10: for every URL the image cacher returns either the empty
string or exactly the content-addressed path imagesDir slash digest of the
url dot jpg, a name derived only from the URL; the model is a total
function because the source catches every exception and returns the empty
string instead of raising. -/
theorem cache_image_result_shape (cfg : ImgConfig)
    (net : String → NetResult) (fs : ImgFS) (url : String) :
    (cache_image cfg net fs url).result = ""
    ∨ (cache_image cfg net fs url).result = imagePath cfg url := by
  rcases hl : lookupFile fs (imagePath cfg url) with _ | b
  · rcases hn : net url with _ | c | _ <;> simp [cache_image, hl, hn]
  · cases b
    · rcases hn : net url with _ | c | _ <;> simp [cache_image, hl, hn]
    · simp [cache_image, hl]
